import Mathlib

/-!
Verification development for the XSLT viewer transformation pipeline
(`src/app/components/XsltTransformer.tsx`).

The component owns two text buffers (`xmlCode`, `xsltCode`) and a debounced
callback `performTransformation` that parses both buffers with the host
`DOMParser`, detects parse failures by searching the parsed tree for
elements named `parsererror`, runs the host `XSLTProcessor`, and publishes
either a serialized result string (`output`) or an error message (`error`).

The host capabilities (`DOMParser`, `XSLTProcessor`, `XMLSerializer`) are
platform APIs, not code of this repository; they are abstracted as an
`Engine` record over a concrete tree type `XmlNode`, and the pipeline logic
itself is embedded faithfully from the source.
-/

namespace XsltViewer

/-- A node of a parsed XML document tree, as produced by the host parser:
either an element with a tag name and child nodes, or a text node. -/
inductive XmlNode where
  | element (tag : String) (children : List XmlNode)
  | text (content : String)
deriving Repr

mutual

/-- `doc.getElementsByTagName name`: all elements in the tree whose tag is
`name`, in document (pre-)order, the root included. -/
def elementsByTagName (name : String) : XmlNode → List XmlNode
  | .text _ => []
  | .element tag children =>
      (if tag = name then [XmlNode.element tag children] else []) ++
        elementsByTagNameList name children

/-- `getElementsByTagName` accumulated over a list of sibling nodes. -/
def elementsByTagNameList (name : String) : List XmlNode → List XmlNode
  | [] => []
  | c :: cs => elementsByTagName name c ++ elementsByTagNameList name cs

end

mutual

/-- The DOM `textContent` of a node: the concatenation of all descendant
text content, in document order. -/
def textContent : XmlNode → String
  | .text s => s
  | .element _ children => textContentList children

/-- `textContent` accumulated over a list of sibling nodes. -/
def textContentList : List XmlNode → String
  | [] => ""
  | c :: cs => textContent c ++ textContentList cs

end

/-- The host capabilities used by the pipeline, as one record:
`parseFromString` is `new DOMParser().parseFromString(s, "application/xml")`
(which always returns a tree — on a parse failure the returned tree contains
a `parsererror` element); `parseAccepts` records whether the host parser
accepted the input as well-formed XML (the source never consults this);
`transformToDocument st doc` is
`processor.importStylesheet(st); processor.transformToDocument(doc)`
on a fresh `XSLTProcessor`, with `none` for a `null` result document;
`serializeToString` is `new XMLSerializer().serializeToString`. -/
structure Engine where
  parseFromString : String → XmlNode
  parseAccepts : String → Bool
  transformToDocument : XmlNode → XmlNode → Option XmlNode
  serializeToString : XmlNode → String

/-- The two pieces of component state written by one pipeline run:
`output` (rendered markup) and `error` (the message, or `null`). -/
structure RunState where
  output : String
  error : Option String
deriving Repr, DecidableEq

/-- The body of the `try` block of `performTransformation`
(`XsltTransformer.tsx` lines 122-147): parse both buffers, check each parsed
tree for `parsererror` elements (throwing `Invalid XML: …` resp.
`Invalid XSLT: …` with the first marker's `textContent`), transform with a
fresh processor, throw on a `null` result document, and otherwise return the
serialized result string. -/
def tryTransform (eng : Engine) (xmlCode xsltCode : String) :
    Except String String :=
  let xmlDoc := eng.parseFromString xmlCode
  let xsltDoc := eng.parseFromString xsltCode
  match elementsByTagName "parsererror" xmlDoc with
  | pe :: _ => .error ("Invalid XML: " ++ textContent pe)
  | [] =>
  match elementsByTagName "parsererror" xsltDoc with
  | pe :: _ => .error ("Invalid XSLT: " ++ textContent pe)
  | [] =>
  match eng.transformToDocument xsltDoc xmlDoc with
  | none =>
      .error "Transformation failed. The result document is null. Check XSLT for errors."
  | some resultDoc => .ok (eng.serializeToString resultDoc)

/-- One debounced run of `performTransformation`
(`XsltTransformer.tsx` lines 115-153): if either buffer is empty
(JavaScript falsiness of a string), set `output := ""` and `error := null`
and return; otherwise run the `try` block — on success set `output` to the
serialized string and `error := null`, and in the `catch` set
`error := "Transformation Error: " ++ message` and `output := ""`. -/
def performTransformation (eng : Engine) (xmlCode xsltCode : String) :
    RunState :=
  if xmlCode = "" ∨ xsltCode = "" then
    { output := "", error := none }
  else
    match tryTransform eng xmlCode xsltCode with
    | .ok resultString => { output := resultString, error := none }
    | .error m => { output := "", error := some ("Transformation Error: " ++ m) }

/-- The debounce quiet period passed to `useDebouncedCallback`
(`XsltTransformer.tsx` line 153), in milliseconds. -/
def debounceDelay : Nat := 300

/-- The two buffers read by a run: `(xmlCode, xsltCode)`. -/
abbrev BufferPair := String × String

/-- Modelled from the spec: the trailing-edge debounce scheduling performed
by the `use-debounce` library (a dependency whose code is not in this
repository). Each edit event `(t, v)` — `v` the buffer pair after the edit —
resets the single pending timer to fire at `t + delay`; a timer is cancelled
by the next edit when that edit arrives strictly before the fire time, and
otherwise survives and fires one pipeline run carrying the buffer values
current at its fire time. Input events are in strictly increasing time
order; the result lists the runs that actually fire, as
`(fireTime, buffers)`. -/
def debouncedRuns (delay : Nat) :
    List (Nat × BufferPair) → List (Nat × BufferPair)
  | [] => []
  | [(t, v)] => [(t + delay, v)]
  | (t, v) :: (t2, w) :: rest =>
      (if t + delay ≤ t2 then [(t + delay, v)] else []) ++
        debouncedRuns delay ((t2, w) :: rest)

/-- The edit events are strictly increasing in time and every gap between
consecutive edits is shorter than `delay`. -/
def rapidlySpaced (delay : Nat) : List (Nat × BufferPair) → Bool
  | [] => true
  | [_] => true
  | (t, _) :: (t2, w) :: rest =>
      (decide (t < t2) && decide (t2 < t + delay)) &&
        rapidlySpaced delay ((t2, w) :: rest)

/-- The initial read of `useLocalStorage`
(`XsltTransformer.tsx` lines 80-91): load the raw item stored under `key`;
when it is absent (or the empty string, which is falsy) fall back to
`initialValue`; otherwise decode it as JSON, falling back to `initialValue`
when decoding throws (`jsonParse` returns `none`). -/
def readStoredValue {V : Type} (jsonParse : String → Option V)
    (storage : String → Option String) (key : String) (initialValue : V) :
    V :=
  match storage key with
  | none => initialValue
  | some item =>
      if item = "" then initialValue
      else
        match jsonParse item with
        | some v => v
        | none => initialValue

/-- The `setValue` function of `useLocalStorage`
(`XsltTransformer.tsx` lines 93-103) for a plain (non-function) value:
the new in-memory state is `value`, and storage is updated to hold the
JSON-encoded value under `key`. Returns the pair
(new state, new storage contents). -/
def setValue {V : Type} (jsonStringify : V → String)
    (storage : String → Option String) (key : String) (value : V) :
    V × (String → Option String) :=
  (value, fun k => if k = key then some (jsonStringify value) else storage k)

/-- The built-in sample XML document (`XsltTransformer.tsx` lines 19-38). -/
def sampleXML : String := "<?xml version=\"1.0\" encoding=\"UTF-8\"?>\n<catalog>\n  <book id=\"bk101\">\n    <author>Gambardella, Matthew</author>\n    <title>XML Developer\x27s Guide</title>\n    <genre>Computer</genre>\n    <price>44.95</price>\n    <publish_date>2000-10-01</publish_date>\n    <description>An in-depth look at creating applications with XML.</description>\n  </book>\n  <book id=\"bk102\">\n    <author>Ralls, Kim</author>\n    <title>Midnight Rain</title>\n    <genre>Fantasy</genre>\n    <price>5.95</price>\n    <publish_date>2000-12-16</publish_date>\n    <description>A former architect battles corporate zombies.</description>\n  </book>\n</catalog>\n"

/-- The built-in sample XSLT stylesheet
(`XsltTransformer.tsx` lines 40-76). -/
def sampleXSLT : String := "<?xml version=\"1.0\" encoding=\"UTF-8\"?>\n<xsl:stylesheet version=\"1.0\" xmlns:xsl=\"http://www.w3.org/1999/XSL/Transform\">\n<xsl:template match=\"/\">\n  <html>\n  <head>\n    <style>\n      body \x7b font-family: sans-serif; margin: 2rem; background-color: #ffffff; color: #111827; \x7d\n      h1 \x7b color: #005b96; \x7d\n      table \x7b width: 100%; border-collapse: collapse; \x7d\n      th, td \x7b padding: 0.5rem 0.75rem; border: 1px solid #d1d5db; text-align: left; \x7d\n      th \x7b background-color: #0072bc; color: white; \x7d\n      tr:nth-child(even) \x7b background-color: #f3f4f6; \x7d\n    </style>\n  </head>\n  <body>\n    <h1>Book Catalog</h1>\n    <table>\n      <tr>\n        <th>Author</th>\n        <th>Title</th>\n        <th>Genre</th>\n        <th>Price</th>\n      </tr>\n      <xsl:for-each select=\"catalog/book\">\n      <tr>\n        <td><xsl:value-of select=\"author\"/></td>\n        <td><xsl:value-of select=\"title\"/></td>\n        <td><xsl:value-of select=\"genre\"/></td>\n        <td>$<xsl:value-of select=\"price\"/></td>\n      </tr>\n      </xsl:for-each>\n    </table>\n  </body>\n  </html>\n</xsl:template>\n</xsl:stylesheet>\n"

mutual

/-- A plain serializer for the test engine below, standing in for
`XMLSerializer.serializeToString`. -/
def serializeNode : XmlNode → String
  | .text s => s
  | .element tag children =>
      "<" ++ tag ++ ">" ++ serializeNodeList children ++ "</" ++ tag ++ ">"

/-- `serializeNode` over a list of sibling nodes. -/
def serializeNodeList : List XmlNode → String
  | [] => ""
  | c :: cs => serializeNode c ++ serializeNodeList cs

end

/-- Host parsing behaviour at the handful of concrete inputs used in the
examples: well-formed inputs (including a document whose root element is
literally named `parsererror`) parse to their own tree; malformed inputs
parse to an error document containing a `parsererror` element carrying the
diagnostic text, as the browser `DOMParser` produces for
`application/xml`. -/
def hostParse (s : String) : XmlNode :=
  if s = "<root/>" then .element "root" []
  else if s = "<parsererror>boom</parsererror>" then
    .element "parsererror" [.text "boom"]
  else if s = "<a><b></a>" then
    .element "parsererror" [.text "unclosed tag: b"]
  else if s = "<xsl:stylesheet/>" then .element "xsl:stylesheet" []
  else if s = "<xsl:bad/>" then .element "xsl:bad" []
  else .element "parsererror" [.text "syntax error"]

/-- Which of the concrete inputs the host parser accepts as well-formed
XML. The document `<parsererror>boom</parsererror>` is well formed and
accepted. -/
def hostAccepts (s : String) : Bool :=
  s = "<root/>" || s = "<parsererror>boom</parsererror>" ||
    s = "<xsl:stylesheet/>" || s = "<xsl:bad/>"

/-- Host transform behaviour for the test engine: the good stylesheet
yields a result document for any input document; anything else yields a
`null` result. -/
def hostTransform : XmlNode → XmlNode → Option XmlNode
  | XmlNode.element "xsl:stylesheet" [], _ =>
      some (.element "html" [.text "transformed"])
  | _, _ => none

/-- A concrete host engine used to instantiate the generic theorems at
explicit inputs. -/
def testEngine : Engine :=
  { parseFromString := hostParse
    parseAccepts := hostAccepts
    transformToDocument := hostTransform
    serializeToString := serializeNode }

/-- Taking exactly the length of the left operand of an append returns that
operand. -/
theorem take_length_append {α : Type} (l1 l2 : List α) :
    (l1 ++ l2).take l1.length = l1 := by
  induction l1 with
  | nil => simp
  | cons a t ih => simp [ih]

/-- Two strings differ when the first disagrees with the second's prefix,
whatever is appended to that prefix. -/
theorem string_ne_append_of_take_ne (t p : String)
    (h : t.data.take p.data.length ≠ p.data) :
    ∀ d : String, t ≠ p ++ d := by
  intro d hd
  apply h
  have h2 : t.data = p.data ++ d.data := by
    rw [hd, String.data_append]
  rw [h2, take_length_append]

/-- C2: when at least one buffer is the empty string, one run sets the
output to `""` and the error to `null`, and consults no host capability at
all (the result does not depend on the engine), whatever the other buffer
holds. -/
theorem empty_buffer_short_circuits (eng : Engine) (xmlCode xsltCode : String)
    (h : xmlCode = "" ∨ xsltCode = "") :
    performTransformation eng xmlCode xsltCode =
      { output := "", error := none } ∧
    ∀ eng2 : Engine, performTransformation eng2 xmlCode xsltCode =
      performTransformation eng xmlCode xsltCode := by
  constructor
  · simp [performTransformation, h]
  · intro eng2
    simp [performTransformation, h]

/-- Witness for C2: an empty document buffer with a malformed stylesheet
buffer short-circuits to the empty, error-free result. -/
theorem empty_buffer_short_circuits_witness :
    performTransformation testEngine "" "<a><b></a>" =
      { output := "", error := none } :=
  (empty_buffer_short_circuits testEngine "" "<a><b></a>" (Or.inl rfl)).1

/-- C4: after every run, at most one of output and error is set: either the
error is `null`, or the output has been cleared to the empty string. -/
theorem output_error_mutually_exclusive (eng : Engine)
    (xmlCode xsltCode : String) :
    (performTransformation eng xmlCode xsltCode).error = none ∨
    (performTransformation eng xmlCode xsltCode).output = "" := by
  unfold performTransformation
  split
  · exact Or.inl rfl
  · split
    · exact Or.inl rfl
    · exact Or.inr rfl

/-- C5: when both buffers are non-empty and the parsed document tree holds
a `parsererror` element, the run fails with `Invalid XML` followed by the
first marker's text content, and the output is cleared — with no condition
at all on the stylesheet buffer, which may itself be malformed. -/
theorem malformed_xml_fails_invalid_xml (eng : Engine)
    (xmlCode xsltCode : String) (hx : xmlCode ≠ "") (hs : xsltCode ≠ "")
    (pe : XmlNode) (rest : List XmlNode)
    (hpe : elementsByTagName "parsererror" (eng.parseFromString xmlCode) =
      pe :: rest) :
    performTransformation eng xmlCode xsltCode =
      { output := "",
        error := some ("Transformation Error: " ++
          ("Invalid XML: " ++ textContent pe)) } := by
  simp [performTransformation, tryTransform, hx, hs, hpe]

/-- Witness for C5: a malformed document paired with a malformed stylesheet
still reports the document's `Invalid XML` failure. -/
theorem malformed_xml_fails_invalid_xml_witness :
    performTransformation testEngine "<a><b></a>" "<xsl:stylesheet>" =
      { output := "",
        error := some "Transformation Error: Invalid XML: unclosed tag: b" } := by
  have h := malformed_xml_fails_invalid_xml testEngine "<a><b></a>"
    "<xsl:stylesheet>" (by decide) (by decide)
    (XmlNode.element "parsererror" [XmlNode.text "unclosed tag: b"]) []
    rfl
  exact h

/-- C6: when both buffers are non-empty, the parsed document tree is free
of `parsererror` elements, and the parsed stylesheet tree holds one, the
run fails with `Invalid XSLT` followed by the first marker's text content,
and the output is cleared. -/
theorem malformed_xslt_fails_invalid_xslt (eng : Engine)
    (xmlCode xsltCode : String) (hx : xmlCode ≠ "") (hs : xsltCode ≠ "")
    (hxm : elementsByTagName "parsererror" (eng.parseFromString xmlCode) = [])
    (pe : XmlNode) (rest : List XmlNode)
    (hpe : elementsByTagName "parsererror" (eng.parseFromString xsltCode) =
      pe :: rest) :
    performTransformation eng xmlCode xsltCode =
      { output := "",
        error := some ("Transformation Error: " ++
          ("Invalid XSLT: " ++ textContent pe)) } := by
  simp [performTransformation, tryTransform, hx, hs, hxm, hpe]

/-- Witness for C6: a well-formed document paired with a malformed
stylesheet reports the stylesheet's `Invalid XSLT` failure. -/
theorem malformed_xslt_fails_invalid_xslt_witness :
    performTransformation testEngine "<root/>" "<xsl:stylesheet>" =
      { output := "",
        error := some "Transformation Error: Invalid XSLT: syntax error" } := by
  have h := malformed_xslt_fails_invalid_xslt testEngine "<root/>"
    "<xsl:stylesheet>" (by decide) (by decide) rfl
    (XmlNode.element "parsererror" [XmlNode.text "syntax error"]) []
    rfl
  exact h

/-- C7: when both buffers are non-empty, both parsed trees are free of
`parsererror` elements, and the engine's transform returns a `null` result
document, the run fails with the fixed `Transformation failed…` message —
a message distinct from every possible `Invalid XML` and `Invalid XSLT`
parse-failure message, whatever diagnostic text those would carry. -/
theorem null_result_fails_distinctly (eng : Engine)
    (xmlCode xsltCode : String) (hx : xmlCode ≠ "") (hs : xsltCode ≠ "")
    (hxm : elementsByTagName "parsererror" (eng.parseFromString xmlCode) = [])
    (hsm : elementsByTagName "parsererror" (eng.parseFromString xsltCode) = [])
    (ht : eng.transformToDocument (eng.parseFromString xsltCode)
      (eng.parseFromString xmlCode) = none) :
    performTransformation eng xmlCode xsltCode =
      { output := "",
        error := some ("Transformation Error: " ++
          "Transformation failed. The result document is null. Check XSLT for errors.") } ∧
    (∀ d : String,
      ("Transformation Error: " ++
        "Transformation failed. The result document is null. Check XSLT for errors.") ≠
      "Transformation Error: " ++ ("Invalid XML: " ++ d)) ∧
    (∀ d : String,
      ("Transformation Error: " ++
        "Transformation failed. The result document is null. Check XSLT for errors.") ≠
      "Transformation Error: " ++ ("Invalid XSLT: " ++ d)) := by
  refine ⟨?_, ?_, ?_⟩
  · simp [performTransformation, tryTransform, hx, hs, hxm, hsm, ht]
  · intro d
    have h := string_ne_append_of_take_ne
      ("Transformation Error: Transformation failed. The result document is null. Check XSLT for errors.")
      "Transformation Error: Invalid XML: " (by decide) d
    simpa using h
  · intro d
    have h := string_ne_append_of_take_ne
      ("Transformation Error: Transformation failed. The result document is null. Check XSLT for errors.")
      "Transformation Error: Invalid XSLT: " (by decide) d
    simpa using h

/-- Witness for C7: a well-formed document and a well-formed but
unsupported stylesheet produce the `Transformation failed…` message. -/
theorem null_result_fails_distinctly_witness :
    performTransformation testEngine "<root/>" "<xsl:bad/>" =
      { output := "",
        error := some "Transformation Error: Transformation failed. The result document is null. Check XSLT for errors." } :=
  (null_result_fails_distinctly testEngine "<root/>" "<xsl:bad/>"
    (by decide) (by decide) rfl rfl rfl).1

/-- C8: every failing run surfaces its error as a single string that starts
with the prefix `"Transformation Error: "`; the failure kind exists only
inside the message text (the run state has no kind field). -/
theorem failures_share_prefix (eng : Engine) (xmlCode xsltCode : String)
    (m : String)
    (h : (performTransformation eng xmlCode xsltCode).error = some m) :
    ∃ rest : String, m = "Transformation Error: " ++ rest := by
  unfold performTransformation at h
  split at h
  · simp at h
  · split at h
    · simp at h
    · rename_i m2 heq
      refine ⟨m2, ?_⟩
      simpa using h.symm

/-- Witness for C8: the message of a concrete failing run starts with the
common prefix. -/
theorem failures_share_prefix_witness :
    ∃ rest : String,
      "Transformation Error: Invalid XML: unclosed tag: b" =
        "Transformation Error: " ++ rest :=
  failures_share_prefix testEngine "<a><b></a>" "<xsl:stylesheet/>"
    "Transformation Error: Invalid XML: unclosed tag: b" rfl

/-- C1 (amended): for every non-empty document and stylesheet buffer, both
accepted by the host engine, whose parsed trees moreover contain no element
named `parsererror`, and for which the engine's transform returns a result
document, the run succeeds: the output is the serialized markup string of
the transformed result tree and the error is `null`. -/
theorem wellformed_pair_success (eng : Engine) (xmlCode xsltCode : String)
    (hx : xmlCode ≠ "") (hs : xsltCode ≠ "")
    (_hxa : eng.parseAccepts xmlCode = true)
    (_hsa : eng.parseAccepts xsltCode = true)
    (hxm : elementsByTagName "parsererror" (eng.parseFromString xmlCode) = [])
    (hsm : elementsByTagName "parsererror" (eng.parseFromString xsltCode) = [])
    (resultDoc : XmlNode)
    (ht : eng.transformToDocument (eng.parseFromString xsltCode)
      (eng.parseFromString xmlCode) = some resultDoc) :
    performTransformation eng xmlCode xsltCode =
      { output := eng.serializeToString resultDoc, error := none } := by
  simp [performTransformation, tryTransform, hx, hs, hxm, hsm, ht]

/-- Witness for C1 (amended): the concrete good pair succeeds with the
serialized result tree as output. -/
theorem wellformed_pair_success_witness :
    performTransformation testEngine "<root/>" "<xsl:stylesheet/>" =
      { output := "<html>transformed</html>", error := none } := by
  have h := wellformed_pair_success testEngine "<root/>" "<xsl:stylesheet/>"
    (by decide) (by decide) rfl rfl rfl rfl
    (XmlNode.element "html" [XmlNode.text "transformed"]) rfl
  simpa using h

/-- Counterexample to C1 as stated: `<parsererror>boom</parsererror>` is a
non-empty document that the host parser accepts as well-formed XML, the
stylesheet is non-empty, accepted and supported (the engine would return a
result document), yet the run produces a failure, not a Success. -/
theorem accepted_xml_run_can_fail :
    "<parsererror>boom</parsererror>" ≠ "" ∧
    "<xsl:stylesheet/>" ≠ "" ∧
    testEngine.parseAccepts "<parsererror>boom</parsererror>" = true ∧
    testEngine.parseAccepts "<xsl:stylesheet/>" = true ∧
    testEngine.transformToDocument
        (testEngine.parseFromString "<xsl:stylesheet/>")
        (testEngine.parseFromString "<parsererror>boom</parsererror>") =
      some (XmlNode.element "html" [XmlNode.text "transformed"]) ∧
    performTransformation testEngine "<parsererror>boom</parsererror>"
        "<xsl:stylesheet/>" =
      { output := "",
        error := some "Transformation Error: Invalid XML: boom" } :=
  ⟨by decide, by decide, by decide, by decide, rfl, by decide⟩

/-- C10: for every engine and non-empty buffers, a document the host parser
accepts whose parsed tree nevertheless contains an element tagged
`parsererror` is reported as an `Invalid XML` failure rather than a
Success; symmetrically, an accepted stylesheet whose tree contains such an
element (the document side being marker-free) is reported as an
`Invalid XSLT` failure. -/
theorem parsererror_element_false_positive (eng : Engine)
    (xmlCode xsltCode : String) (hx : xmlCode ≠ "") (hs : xsltCode ≠ "") :
    (∀ pe rest, eng.parseAccepts xmlCode = true →
      elementsByTagName "parsererror" (eng.parseFromString xmlCode) =
        pe :: rest →
      performTransformation eng xmlCode xsltCode =
        { output := "",
          error := some ("Transformation Error: " ++
            ("Invalid XML: " ++ textContent pe)) }) ∧
    (∀ pe rest, eng.parseAccepts xsltCode = true →
      elementsByTagName "parsererror" (eng.parseFromString xmlCode) = [] →
      elementsByTagName "parsererror" (eng.parseFromString xsltCode) =
        pe :: rest →
      performTransformation eng xmlCode xsltCode =
        { output := "",
          error := some ("Transformation Error: " ++
            ("Invalid XSLT: " ++ textContent pe)) }) := by
  constructor
  · intro pe rest _ hpe
    simp [performTransformation, tryTransform, hx, hs, hpe]
  · intro pe rest _ hxm hpe
    simp [performTransformation, tryTransform, hx, hs, hxm, hpe]

/-- Witness for C10: the accepted document whose root element is named
`parsererror` is reported as invalid XML. -/
theorem parsererror_element_false_positive_witness :
    performTransformation testEngine "<parsererror>boom</parsererror>"
        "<xsl:stylesheet/>" =
      { output := "",
        error := some "Transformation Error: Invalid XML: boom" } := by
  have h := (parsererror_element_false_positive testEngine
      "<parsererror>boom</parsererror>" "<xsl:stylesheet/>"
      (by decide) (by decide)).1
    (XmlNode.element "parsererror" [XmlNode.text "boom"]) [] (by decide) rfl
  simpa using h

/-- C3: when every gap between consecutive edits is shorter than the 300 ms
quiet period, exactly one transformation run fires, at one quiet period
after the last edit, and it carries exactly the final buffer pair — every
earlier pending run having been superseded, none queued. -/
theorem rapid_edits_single_run (edits : List (Nat × BufferPair))
    (tl : Nat) (vl : BufferPair)
    (hrapid : rapidlySpaced debounceDelay edits = true)
    (hlast : edits.getLast? = some (tl, vl)) :
    debouncedRuns debounceDelay edits = [(tl + debounceDelay, vl)] := by
  induction edits with
  | nil => simp at hlast
  | cons e rest ih =>
    obtain ⟨t, v⟩ := e
    cases rest with
    | nil =>
      simp only [List.getLast?_singleton, Option.some.injEq, Prod.mk.injEq]
        at hlast
      simp [debouncedRuns, hlast.1, hlast.2]
    | cons e2 rest2 =>
      obtain ⟨t2, w⟩ := e2
      have hr : rapidlySpaced debounceDelay ((t2, w) :: rest2) = true := by
        simp only [rapidlySpaced, Bool.and_eq_true] at hrapid
        exact hrapid.2
      have hgap : t2 < t + debounceDelay := by
        simp only [rapidlySpaced, Bool.and_eq_true, decide_eq_true_eq]
          at hrapid
        exact hrapid.1.2
      have hl : ((t2, w) :: rest2).getLast? = some (tl, vl) := by
        rw [← hlast]
        exact (List.getLast?_cons_cons ..).symm
      have hrec := ih hr hl
      simp only [debouncedRuns, Nat.not_le.mpr hgap, if_false, List.nil_append]
      exact hrec

/-- Witness for C3: three edits 100 ms apart produce one single run, 300 ms
after the last edit, carrying the last edit's buffers. -/
theorem rapid_edits_single_run_witness :
    debouncedRuns debounceDelay
        [(0, "<a/>", "<s1/>"), (100, "<b/>", "<s2/>"),
          (200, "<root/>", "<xsl:stylesheet/>")] =
      [(500, "<root/>", "<xsl:stylesheet/>")] :=
  rapid_edits_single_run
    [(0, "<a/>", "<s1/>"), (100, "<b/>", "<s2/>"),
      (200, "<root/>", "<xsl:stylesheet/>")]
    200 ("<root/>", "<xsl:stylesheet/>") (by decide) rfl

/-- C9: a stored entry under `"xmlCode"` / `"xsltCode"` that is absent, or
whose JSON decoding throws, falls back to the built-in sample; and every
change writes the JSON-encoded new value back to storage under its fixed
key. -/
theorem local_storage_fallback_and_writeback
    (jsonParse : String → Option String)
    (jsonStringify : String → String)
    (storage : String → Option String) :
    (storage "xmlCode" = none →
      readStoredValue jsonParse storage "xmlCode" sampleXML = sampleXML) ∧
    (∀ item, storage "xmlCode" = some item → jsonParse item = none →
      readStoredValue jsonParse storage "xmlCode" sampleXML = sampleXML) ∧
    (storage "xsltCode" = none →
      readStoredValue jsonParse storage "xsltCode" sampleXSLT = sampleXSLT) ∧
    (∀ item, storage "xsltCode" = some item → jsonParse item = none →
      readStoredValue jsonParse storage "xsltCode" sampleXSLT = sampleXSLT) ∧
    (∀ v : String,
      (setValue jsonStringify storage "xmlCode" v).1 = v ∧
      (setValue jsonStringify storage "xmlCode" v).2 "xmlCode" =
        some (jsonStringify v)) ∧
    (∀ v : String,
      (setValue jsonStringify storage "xsltCode" v).1 = v ∧
      (setValue jsonStringify storage "xsltCode" v).2 "xsltCode" =
        some (jsonStringify v)) := by
  refine ⟨?_, ?_, ?_, ?_, ?_, ?_⟩
  · intro h
    simp [readStoredValue, h]
  · intro item h hp
    by_cases he : item = ""
    · simp [readStoredValue, h, he]
    · simp [readStoredValue, h, he, hp]
  · intro h
    simp [readStoredValue, h]
  · intro item h hp
    by_cases he : item = ""
    · simp [readStoredValue, h, he]
    · simp [readStoredValue, h, he, hp]
  · intro v
    exact ⟨rfl, by simp [setValue]⟩
  · intro v
    exact ⟨rfl, by simp [setValue]⟩

/-- Witness for C9: with empty storage both buffers read back as the
built-in samples, and a write to `"xmlCode"` stores the encoded value. -/
theorem local_storage_fallback_and_writeback_witness :
    readStoredValue (fun _ => none) (fun _ => none) "xmlCode" sampleXML =
      sampleXML ∧
    readStoredValue (fun _ => none) (fun _ => none) "xsltCode" sampleXSLT =
      sampleXSLT ∧
    (setValue (fun s => "\"" ++ s ++ "\"") (fun _ => none) "xmlCode"
        "<root/>").2 "xmlCode" = some "\"<root/>\"" := by
  refine ⟨?_, ?_, ?_⟩
  · exact (local_storage_fallback_and_writeback (fun _ => none)
      (fun s => "\"" ++ s ++ "\"") (fun _ => none)).1 rfl
  · exact (local_storage_fallback_and_writeback (fun _ => none)
      (fun s => "\"" ++ s ++ "\"") (fun _ => none)).2.2.1 rfl
  · exact ((local_storage_fallback_and_writeback (fun _ => none)
      (fun s => "\"" ++ s ++ "\"") (fun _ => none)).2.2.2.2.1 "<root/>").2

end XsltViewer
